import Mathlib

/-!
Verification of the STS risk-calculator core (stsCalculator.js).

The JavaScript source is shallowly embedded: JS numbers are modelled as
exact rationals (ℚ), JS objects with optional fields as structures of
`Option` fields, and JS truthiness tests as the `truthy*` helpers below.
Each detailed outcome scorer of the source accumulates a logit and pushes
one trace row per fired rule; that shared idiom is captured once by
`Trace.rule`, and every scorer is a pipeline of `Trace.rule` applications
transcribing the source's conditions and coefficients in order.  The
display-only `value` and `description` strings of the source's trace rows
are omitted; a trace row here keeps the row name, the coefficient and the
numeric contribution.  The summary rows the source appends at the end
(TOTAL LOGIT, LOGISTIC TRANSFORMATION, FINAL ... RISK) record the
accumulated logit and values derived from it by the logistic transform;
they are represented by the `logit` field of `Trace` together with the
noncomputable display layer (`logisticProb`, `toFixedVal`,
`Outcome.displayedPercent`) further below.
-/

/-- A structured patient record (the input of `calculateSTSRisk`).  Every
field is optional; `none` models an absent JS property.  The source's
`nyhaClass` may also arrive as a string and be parsed with `parseInt`;
only the numeric form is modelled here. -/
structure PatientData where
  age : Option ℚ := none
  gender : Option String := none
  procedureType : Option String := none
  ejectionFraction : Option ℚ := none
  diabetes : Option String := none
  dialysis : Option Bool := none
  creatinine : Option ℚ := none
  nyhaClass : Option ℚ := none
  priority : Option String := none
  reoperation : Option Bool := none
  priorCardiacSurgery : Option Bool := none
  previousCABG : Option Bool := none
  previousValve : Option Bool := none
  surgeryIncidence : Option String := none
  chf : Option Bool := none
  heartFailure : Option Bool := none
  pvd : Option Bool := none
  peripheralVascularDisease : Option Bool := none
  copd : Option Bool := none
  chronicLungDisease : Option String := none
  copdSeverity : Option String := none
  recentMI : Option Bool := none
  miTiming : Option String := none
  cardiogenicShock : Option Bool := none
  iabp : Option Bool := none
  mechanicalSupport : Option Bool := none
  leftMainStenosis : Option Bool := none
  leftMainDisease : Option Bool := none
  hypertension : Option Bool := none
  priorStroke : Option Bool := none
  cerebrovascularDisease : Option String := none
  bmi : Option ℚ := none
  endocarditis : Option Bool := none
  pulmonaryHypertension : Option Bool := none
  deriving DecidableEq, Repr

/-- JS `String.prototype.toLowerCase` restricted to the characters the
source compares (ASCII letters; other characters are left unchanged). -/
def jsToLower (s : String) : String := String.mk (s.data.map Char.toLower)

/-- Prefix test on character lists (used to implement substring search). -/
def isPrefixChars : List Char → List Char → Bool
  | [], _ => true
  | _ :: _, [] => false
  | a :: as, b :: bs => a == b && isPrefixChars as bs

/-- Substring occurrence test on character lists. -/
def isInfixChars (needle : List Char) : List Char → Bool
  | [] => isPrefixChars needle []
  | c :: rest => isPrefixChars needle (c :: rest) || isInfixChars needle rest

/-- JS `String.prototype.includes`. -/
def jsIncludes (s sub : String) : Bool := isInfixChars sub.data s.data

/-- The string value of an optional field, `""` when absent (the source's
`field?.toLowerCase() || ''` idiom). -/
def strOrEmpty : Option String → String
  | none => ""
  | some s => s

/-- Lower-cased field value with `""` for an absent field. -/
def lowerOrEmpty (o : Option String) : String := jsToLower (strOrEmpty o)

/-- Numeric value of an optional field, `0` when absent.  Comparisons with
an absent field are always guarded by `truthyN` in the source, so the
default is never observed. -/
def qOr0 : Option ℚ → ℚ
  | none => 0
  | some x => x

/-- JS truthiness of a numeric field (`undefined` and `0` are falsy). -/
def truthyN : Option ℚ → Bool
  | none => false
  | some x => decide (x ≠ 0)

/-- JS truthiness of a string field (`undefined` and `""` are falsy). -/
def truthyS : Option String → Bool
  | none => false
  | some s => decide (s ≠ "")

/-- JS truthiness of a boolean field (`undefined` is falsy). -/
def truthyB : Option Bool → Bool
  | none => false
  | some b => b

/-- One non-summary trace row: the row name, the displayed coefficient
(`none` models the source's `'-'`/`'N/A'` placeholder) and the numeric
contribution added to the logit. -/
structure Step where
  varName : String
  coefficient : Option ℚ
  contribution : ℚ
  deriving DecidableEq, Repr

/-- The state threaded through a detailed scorer: the accumulated logit
and the trace rows pushed so far. -/
structure Trace where
  logit : ℚ
  steps : List Step
  deriving DecidableEq, Repr

/-- `let logit = baseline; const steps = [baselineRow]` — the start of
every detailed scorer. -/
def Trace.init (baseline : ℚ) : Trace :=
  { logit := baseline,
    steps := [{ varName := "Baseline Intercept", coefficient := some baseline,
                contribution := baseline }] }

/-- The source's repeated idiom `if (cond) { logit += c; steps.push(row) }`:
when `fires` holds, add the row's contribution to the logit and append the
row; otherwise leave the state unchanged. -/
def Trace.rule (acc : Trace) (fires : Bool) (s : Step) : Trace :=
  if fires then { logit := acc.logit + s.contribution, steps := acc.steps ++ [s] } else acc

/-- Sum of the contributions of the trace rows (the quantity the source's
TOTAL LOGIT row must reconcile with). -/
def Trace.contribSum (t : Trace) : ℚ := (t.steps.map Step.contribution).sum

/-- `data.diabetes && data.diabetes.toString().toLowerCase() !== 'no'`. -/
def diabetesNotNo (d : PatientData) : Bool :=
  truthyS d.diabetes && !(lowerOrEmpty d.diabetes == "no")

/-- `data.priority?.toLowerCase() || ''`. -/
def priorityLower (d : PatientData) : String := lowerOrEmpty d.priority

/-- Mortality/morbidity emergency test:
`priorityLower.includes('emergency') || priorityLower.includes('emergent')`. -/
def mortEmergency (d : PatientData) : Bool :=
  jsIncludes (priorityLower d) "emergency" || jsIncludes (priorityLower d) "emergent"

/-- The other scorers' emergency test: `data.priority?.toLowerCase().includes('emerg')`. -/
def priorityHasEmerg (d : PatientData) : Bool := jsIncludes (priorityLower d) "emerg"

/-- The valve models' emergency test: `data.priority?.toLowerCase() === 'emergency'`. -/
def priorityIsEmergency (d : PatientData) : Bool := priorityLower d == "emergency"

/-- The reoperation OR-chain shared by several scorers:
`data.reoperation || data.priorCardiacSurgery || data.previousCABG ||
data.previousValve || (data.surgeryIncidence &&
data.surgeryIncidence.toLowerCase().includes('reop'))`. -/
def reopChain (d : PatientData) : Bool :=
  truthyB d.reoperation || truthyB d.priorCardiacSurgery || truthyB d.previousCABG ||
    truthyB d.previousValve ||
    (truthyS d.surgeryIncidence && jsIncludes (lowerOrEmpty d.surgeryIncidence) "reop")

/-- The lung-disease gate used by the ventilation, wound-infection,
long-stay, short-stay and morbidity scorers:
`data.copd || (lungDiseaseLower && lungDiseaseLower !== 'no')`. -/
def lungNotNo (d : PatientData) : Bool :=
  truthyB d.copd || (truthyS d.chronicLungDisease && !(lowerOrEmpty d.chronicLungDisease == "no"))

/-- The mortality model's COPD gate — note the raw truthiness test on the
`chronicLungDisease` string: `data.copd || data.chronicLungDisease`. -/
def mortCopdGate (d : PatientData) : Bool :=
  truthyB d.copd || truthyS d.chronicLungDisease

/-- `data.cerebrovascularDisease?.toLowerCase() || ''` combined with
`data.priorStroke || (cvdLower && cvdLower !== 'no')`. -/
def cvdChain (d : PatientData) : Bool :=
  truthyB d.priorStroke ||
    (truthyS d.cerebrovascularDisease && !(lowerOrEmpty d.cerebrovascularDisease == "no"))

/-- `data.miTiming?.toLowerCase() || ''`. -/
def miLower (d : PatientData) : String := lowerOrEmpty d.miTiming

/-- The outer recent-MI test of the mortality/morbidity models. -/
def miOuter (d : PatientData) : Bool :=
  truthyB d.recentMI ||
    jsIncludes (miLower d) "≤ 6 hrs" ||
    jsIncludes (miLower d) "≤6 hrs" ||
    jsIncludes (miLower d) "<24" ||
    jsIncludes (miLower d) "1 to 7 days" ||
    jsIncludes (miLower d) "8 to 21 days"

/-- The inner guard: `'> 21 days'` and its no-space variant never fire. -/
def miNotOver21 (d : PatientData) : Bool :=
  !(jsIncludes (miLower d) "> 21 days") && !(jsIncludes (miLower d) ">21 days")

/-- The recent-MI rule fires when the outer test passes and the over-21-day
guard does not veto it. -/
def miFires (d : PatientData) : Bool := miOuter d && miNotOver21 d

/-- `miTimingLower.includes('≤ 6 hrs') || miTimingLower.includes('≤6 hrs')`
— selects the higher immediate-MI penalty. -/
def miImmediate (d : PatientData) : Bool :=
  jsIncludes (miLower d) "≤ 6 hrs" || jsIncludes (miLower d) "≤6 hrs"

/-- Transcribes `calculateCABGMortalityDetailed` (the CABG operative
mortality model): baseline intercept −6.0 followed by the ordered rule
list of the source. -/
def calculateCABGMortalityDetailed (d : PatientData) : Trace :=
  Trace.init (-6.0)
  |>.rule (truthyN d.age && decide (qOr0 d.age > 60))
      { varName := "Age", coefficient := some 0.05,
        contribution := (qOr0 d.age - 60) * 0.05 }
  |>.rule (truthyN d.age && !decide (qOr0 d.age > 60))
      { varName := "Age", coefficient := some 0.0, contribution := 0 }
  |>.rule (truthyN d.age && decide (qOr0 d.age > 75))
      { varName := "Age > 75 Penalty", coefficient := some 0.3, contribution := 0.3 }
  |>.rule (lowerOrEmpty d.gender == "female")
      { varName := "Female Gender", coefficient := some 0.3, contribution := 0.3 }
  |>.rule (truthyN d.ejectionFraction && decide (qOr0 d.ejectionFraction < 30))
      { varName := "Ejection Fraction", coefficient := some 0.8, contribution := 0.8 }
  |>.rule (truthyN d.ejectionFraction && !decide (qOr0 d.ejectionFraction < 30) &&
      decide (qOr0 d.ejectionFraction < 40))
      { varName := "Ejection Fraction", coefficient := some 0.4, contribution := 0.4 }
  |>.rule (diabetesNotNo d)
      { varName := "Diabetes", coefficient := some 0.2, contribution := 0.2 }
  |>.rule (truthyB d.dialysis)
      { varName := "Dialysis", coefficient := some 1.2, contribution := 1.2 }
  |>.rule (!truthyB d.dialysis && truthyN d.creatinine && decide (qOr0 d.creatinine > 2.0))
      { varName := "Elevated Creatinine", coefficient := some 0.6, contribution := 0.6 }
  |>.rule (truthyN d.nyhaClass && decide (qOr0 d.nyhaClass ≥ 4))
      { varName := "NYHA Class", coefficient := some 0.5, contribution := 0.5 }
  |>.rule (truthyN d.nyhaClass && !decide (qOr0 d.nyhaClass ≥ 4) &&
      decide (qOr0 d.nyhaClass ≥ 3))
      { varName := "NYHA Class", coefficient := some 0.3, contribution := 0.3 }
  |>.rule (mortEmergency d)
      { varName := "Surgical Priority", coefficient := some 1.0, contribution := 1.0 }
  |>.rule (!mortEmergency d && (priorityLower d == "urgent"))
      { varName := "Surgical Priority", coefficient := some 0.4, contribution := 0.4 }
  |>.rule (reopChain d)
      { varName := "Reoperation", coefficient := some 0.6, contribution := 0.6 }
  |>.rule (truthyB d.chf || truthyB d.heartFailure)
      { varName := "Heart Failure", coefficient := some 0.4, contribution := 0.4 }
  |>.rule (truthyB d.pvd || truthyB d.peripheralVascularDisease)
      { varName := "Peripheral Vascular Disease", coefficient := some 0.3, contribution := 0.3 }
  |>.rule (mortCopdGate d && (d.copdSeverity == some "severe"))
      { varName := "COPD", coefficient := some 0.5, contribution := 0.5 }
  |>.rule (mortCopdGate d && !(d.copdSeverity == some "severe"))
      { varName := "COPD", coefficient := some 0.3, contribution := 0.3 }
  |>.rule (miFires d)
      { varName := "Recent MI", coefficient := some (if miImmediate d then 0.7 else 0.5),
        contribution := if miImmediate d then 0.7 else 0.5 }
  |>.rule (truthyB d.cardiogenicShock)
      { varName := "Cardiogenic Shock", coefficient := some 1.5, contribution := 1.5 }
  |>.rule (truthyB d.iabp || truthyB d.mechanicalSupport)
      { varName := "Mechanical Support", coefficient := some 0.7, contribution := 0.7 }
  |>.rule (truthyB d.leftMainStenosis || truthyB d.leftMainDisease)
      { varName := "Left Main Stenosis", coefficient := some 0.5, contribution := 0.5 }

/-- Transcribes `calculateCABGMorbidityDetailed` (the PROMM composite
model), baseline −4.85. -/
def calculateCABGMorbidityDetailed (d : PatientData) : Trace :=
  Trace.init (-4.85)
  |>.rule (truthyN d.age && decide (qOr0 d.age > 60))
      { varName := "Age", coefficient := some 0.055,
        contribution := (qOr0 d.age - 60) * 0.055 }
  |>.rule (truthyN d.age && decide (qOr0 d.age > 75))
      { varName := "Age > 75 Penalty", coefficient := some 0.35, contribution := 0.35 }
  |>.rule (lowerOrEmpty d.gender == "female")
      { varName := "Female Gender", coefficient := some 0.35, contribution := 0.35 }
  |>.rule (truthyN d.ejectionFraction && decide (qOr0 d.ejectionFraction < 30))
      { varName := "Ejection Fraction", coefficient := some 0.9, contribution := 0.9 }
  |>.rule (truthyN d.ejectionFraction && !decide (qOr0 d.ejectionFraction < 30) &&
      decide (qOr0 d.ejectionFraction < 40))
      { varName := "Ejection Fraction", coefficient := some 0.45, contribution := 0.45 }
  |>.rule (diabetesNotNo d)
      { varName := "Diabetes", coefficient := some 0.32, contribution := 0.32 }
  |>.rule (truthyB d.dialysis)
      { varName := "Dialysis", coefficient := some 1.35, contribution := 1.35 }
  |>.rule (!truthyB d.dialysis && truthyN d.creatinine && decide (qOr0 d.creatinine > 2.0))
      { varName := "Elevated Creatinine", coefficient := some 0.68, contribution := 0.68 }
  |>.rule (truthyN d.nyhaClass && decide (qOr0 d.nyhaClass ≥ 4))
      { varName := "NYHA Class", coefficient := some 0.58, contribution := 0.58 }
  |>.rule (truthyN d.nyhaClass && !decide (qOr0 d.nyhaClass ≥ 4) &&
      decide (qOr0 d.nyhaClass ≥ 3))
      { varName := "NYHA Class", coefficient := some 0.35, contribution := 0.35 }
  |>.rule (mortEmergency d)
      { varName := "Surgical Priority", coefficient := some 1.15, contribution := 1.15 }
  |>.rule (!mortEmergency d && (priorityLower d == "urgent"))
      { varName := "Surgical Priority", coefficient := some 0.48, contribution := 0.48 }
  |>.rule (reopChain d)
      { varName := "Reoperation", coefficient := some 0.7, contribution := 0.7 }
  |>.rule (truthyB d.chf || truthyB d.heartFailure)
      { varName := "Heart Failure", coefficient := some 0.48, contribution := 0.48 }
  |>.rule (truthyB d.pvd || truthyB d.peripheralVascularDisease)
      { varName := "Peripheral Vascular Disease", coefficient := some 0.38, contribution := 0.38 }
  |>.rule (lungNotNo d &&
      ((d.copdSeverity == some "severe") || (lowerOrEmpty d.chronicLungDisease == "severe")))
      { varName := "COPD", coefficient := some 0.6, contribution := 0.6 }
  |>.rule (lungNotNo d &&
      !((d.copdSeverity == some "severe") || (lowerOrEmpty d.chronicLungDisease == "severe")))
      { varName := "COPD", coefficient := some 0.38, contribution := 0.38 }
  |>.rule (miFires d)
      { varName := "Recent MI", coefficient := some (if miImmediate d then 0.8 else 0.55),
        contribution := if miImmediate d then 0.8 else 0.55 }
  |>.rule (truthyB d.cardiogenicShock)
      { varName := "Cardiogenic Shock", coefficient := some 1.6, contribution := 1.6 }
  |>.rule (truthyB d.iabp || truthyB d.mechanicalSupport)
      { varName := "Mechanical Support", coefficient := some 0.78, contribution := 0.78 }

/-- Transcribes `calculateCABGStrokeDetailed`, baseline −5.5. -/
def calculateCABGStrokeDetailed (d : PatientData) : Trace :=
  Trace.init (-5.5)
  |>.rule (truthyN d.age && decide (qOr0 d.age > 70))
      { varName := "Age > 70", coefficient := some 0.04,
        contribution := (qOr0 d.age - 70) * 0.04 }
  |>.rule (lowerOrEmpty d.gender == "female")
      { varName := "Female Gender", coefficient := some 0.15, contribution := 0.15 }
  |>.rule (diabetesNotNo d)
      { varName := "Diabetes", coefficient := some 0.2, contribution := 0.2 }
  |>.rule (truthyB d.hypertension)
      { varName := "Hypertension", coefficient := some 0.15, contribution := 0.15 }
  |>.rule (truthyB d.pvd || truthyB d.peripheralVascularDisease)
      { varName := "Peripheral Vascular Disease", coefficient := some 0.3, contribution := 0.3 }
  |>.rule (cvdChain d)
      { varName := "Prior Stroke/CVD", coefficient := some 0.6, contribution := 0.6 }
  |>.rule (priorityHasEmerg d)
      { varName := "Emergency Surgery", coefficient := some 0.4, contribution := 0.4 }

/-- The renal-failure accumulator of `calculateCABGRenalFailureDetailed`
(the branch taken when the patient is not already on dialysis),
baseline −6.5. -/
def renalTrace (d : PatientData) : Trace :=
  Trace.init (-6.5)
  |>.rule (truthyN d.age && decide (qOr0 d.age > 65))
      { varName := "Age > 65", coefficient := some 0.035,
        contribution := (qOr0 d.age - 65) * 0.035 }
  |>.rule (truthyN d.creatinine && decide (qOr0 d.creatinine > 2.0))
      { varName := "Elevated Creatinine", coefficient := some 0.8, contribution := 0.8 }
  |>.rule (truthyN d.creatinine && !decide (qOr0 d.creatinine > 2.0) &&
      decide (qOr0 d.creatinine > 1.5))
      { varName := "Elevated Creatinine", coefficient := some 0.4, contribution := 0.4 }
  |>.rule (diabetesNotNo d)
      { varName := "Diabetes", coefficient := some 0.3, contribution := 0.3 }
  |>.rule (truthyN d.ejectionFraction && decide (qOr0 d.ejectionFraction < 30))
      { varName := "Low Ejection Fraction", coefficient := some 0.5, contribution := 0.5 }
  |>.rule (truthyB d.cardiogenicShock)
      { varName := "Cardiogenic Shock", coefficient := some 1.0, contribution := 1.0 }
  |>.rule (priorityHasEmerg d)
      { varName := "Emergency Surgery", coefficient := some 0.6, contribution := 0.6 }

/-- Result of the renal-failure scorer: `value = none` models the source's
`'NA'` string (no numeric percentage); otherwise the accumulated logit. -/
structure RenalResult where
  value : Option ℚ
  steps : List Step
  deriving DecidableEq, Repr

/-- Transcribes `calculateCABGRenalFailureDetailed`: a patient already on
dialysis gets the not-applicable result with a single explanatory row (the
source's row carries the strings `'N/A'`; no numeric contribution exists,
recorded here as coefficient `none` and contribution `0`). -/
def calculateCABGRenalFailureDetailed (d : PatientData) : RenalResult :=
  if truthyB d.dialysis then
    { value := none,
      steps := [{ varName := "Pre-existing Dialysis", coefficient := none, contribution := 0 }] }
  else
    { value := some (renalTrace d).logit, steps := (renalTrace d).steps }

/-- Transcribes `calculateCABGReoperationDetailed`, baseline −4.0. -/
def calculateCABGReoperationDetailed (d : PatientData) : Trace :=
  Trace.init (-4.0)
  |>.rule (truthyN d.age && decide (qOr0 d.age > 75))
      { varName := "Age > 75", coefficient := some 0.25, contribution := 0.25 }
  |>.rule (lowerOrEmpty d.gender == "female")
      { varName := "Female Gender", coefficient := some 0.2, contribution := 0.2 }
  |>.rule (truthyN d.ejectionFraction && decide (qOr0 d.ejectionFraction < 30))
      { varName := "Low Ejection Fraction", coefficient := some 0.4, contribution := 0.4 }
  |>.rule (truthyB d.dialysis)
      { varName := "Dialysis", coefficient := some 0.5, contribution := 0.5 }
  |>.rule (priorityHasEmerg d)
      { varName := "Emergency Surgery", coefficient := some 0.7, contribution := 0.7 }
  |>.rule (reopChain d)
      { varName := "Prior Cardiac Surgery", coefficient := some 0.6, contribution := 0.6 }

/-- Transcribes `calculateCABGProlongedVentilationDetailed`, baseline −4.2. -/
def calculateCABGProlongedVentilationDetailed (d : PatientData) : Trace :=
  Trace.init (-4.2)
  |>.rule (truthyN d.age && decide (qOr0 d.age > 70))
      { varName := "Age > 70", coefficient := some 0.03,
        contribution := (qOr0 d.age - 70) * 0.03 }
  |>.rule (lowerOrEmpty d.gender == "female")
      { varName := "Female Gender", coefficient := some 0.25, contribution := 0.25 }
  |>.rule (truthyN d.bmi && decide (qOr0 d.bmi > 35))
      { varName := "Obesity (BMI > 35)", coefficient := some 0.4, contribution := 0.4 }
  |>.rule (lungNotNo d)
      { varName := "Chronic Lung Disease", coefficient := some 0.6, contribution := 0.6 }
  |>.rule (truthyN d.ejectionFraction && decide (qOr0 d.ejectionFraction < 30))
      { varName := "Low Ejection Fraction", coefficient := some 0.5, contribution := 0.5 }
  |>.rule (truthyB d.dialysis)
      { varName := "Dialysis", coefficient := some 0.7, contribution := 0.7 }
  |>.rule (priorityHasEmerg d)
      { varName := "Emergency Surgery", coefficient := some 0.8, contribution := 0.8 }
  |>.rule (truthyB d.cardiogenicShock)
      { varName := "Cardiogenic Shock", coefficient := some 1.0, contribution := 1.0 }

/-- Transcribes `calculateCABGDeepSternalWoundInfectionDetailed`,
baseline −6.0 (rendered at 3 decimals by the source). -/
def calculateCABGDeepSternalWoundInfectionDetailed (d : PatientData) : Trace :=
  Trace.init (-6.0)
  |>.rule (lowerOrEmpty d.gender == "female")
      { varName := "Female Gender", coefficient := some 0.3, contribution := 0.3 }
  |>.rule (truthyN d.bmi && decide (qOr0 d.bmi > 30))
      { varName := "Obesity (BMI > 30)", coefficient := some 0.5, contribution := 0.5 }
  |>.rule (diabetesNotNo d)
      { varName := "Diabetes", coefficient := some 0.4, contribution := 0.4 }
  |>.rule (lungNotNo d)
      { varName := "COPD", coefficient := some 0.3, contribution := 0.3 }
  |>.rule (reopChain d)
      { varName := "Reoperation", coefficient := some 0.4, contribution := 0.4 }
  |>.rule (priorityHasEmerg d)
      { varName := "Emergency Surgery", coefficient := some 0.3, contribution := 0.3 }

/-- Transcribes `calculateCABGLongHospitalStayDetailed`, baseline −3.8. -/
def calculateCABGLongHospitalStayDetailed (d : PatientData) : Trace :=
  Trace.init (-3.8)
  |>.rule (truthyN d.age && decide (qOr0 d.age > 75))
      { varName := "Age > 75", coefficient := some 0.4, contribution := 0.4 }
  |>.rule (lowerOrEmpty d.gender == "female")
      { varName := "Female Gender", coefficient := some 0.2, contribution := 0.2 }
  |>.rule (truthyN d.ejectionFraction && decide (qOr0 d.ejectionFraction < 30))
      { varName := "Low Ejection Fraction", coefficient := some 0.6, contribution := 0.6 }
  |>.rule (truthyB d.dialysis)
      { varName := "Dialysis", coefficient := some 0.8, contribution := 0.8 }
  |>.rule (lungNotNo d)
      { varName := "COPD", coefficient := some 0.4, contribution := 0.4 }
  |>.rule (priorityHasEmerg d)
      { varName := "Emergency Surgery", coefficient := some 0.7, contribution := 0.7 }
  |>.rule (truthyB d.cardiogenicShock)
      { varName := "Cardiogenic Shock", coefficient := some 1.0, contribution := 1.0 }
  |>.rule (reopChain d)
      { varName := "Reoperation", coefficient := some 0.5, contribution := 0.5 }

/-- Transcribes `calculateCABGShortHospitalStayDetailed`, baseline −0.5.
Short stay is a positive outcome: every risk factor is pushed with a
negative contribution (subtracted from the logit) except age < 60, which
adds 0.4. -/
def calculateCABGShortHospitalStayDetailed (d : PatientData) : Trace :=
  Trace.init (-0.5)
  |>.rule (truthyN d.age && decide (qOr0 d.age < 60))
      { varName := "Age < 60", coefficient := some 0.4, contribution := 0.4 }
  |>.rule (!(truthyN d.age && decide (qOr0 d.age < 60)) &&
      truthyN d.age && decide (qOr0 d.age > 75))
      { varName := "Age > 75", coefficient := some (-0.5), contribution := -0.5 }
  |>.rule (lowerOrEmpty d.gender == "female")
      { varName := "Female Gender", coefficient := some (-0.2), contribution := -0.2 }
  |>.rule (truthyN d.ejectionFraction && decide (qOr0 d.ejectionFraction < 40))
      { varName := "Low Ejection Fraction", coefficient := some (-0.4), contribution := -0.4 }
  |>.rule (truthyB d.dialysis)
      { varName := "Dialysis", coefficient := some (-0.8), contribution := -0.8 }
  |>.rule (lungNotNo d)
      { varName := "COPD", coefficient := some (-0.3), contribution := -0.3 }
  |>.rule (diabetesNotNo d)
      { varName := "Diabetes", coefficient := some (-0.2), contribution := -0.2 }
  |>.rule (priorityHasEmerg d)
      { varName := "Emergency Surgery", coefficient := some (-0.6), contribution := -0.6 }
  |>.rule (truthyB d.cardiogenicShock)
      { varName := "Cardiogenic Shock", coefficient := some (-1.2), contribution := -1.2 }
  |>.rule (reopChain d)
      { varName := "Reoperation", coefficient := some (-0.4), contribution := -0.4 }

/-- Transcribes `calculateAVRMortalityDetailed`, baseline −5.8. -/
def calculateAVRMortalityDetailed (d : PatientData) : Trace :=
  Trace.init (-5.8)
  |>.rule (truthyN d.age && decide (qOr0 d.age > 60))
      { varName := "Age", coefficient := some 0.06,
        contribution := (qOr0 d.age - 60) * 0.06 }
  |>.rule (truthyN d.age && !decide (qOr0 d.age > 60))
      { varName := "Age", coefficient := some 0.0, contribution := 0 }
  |>.rule (truthyN d.age && decide (qOr0 d.age > 80))
      { varName := "Age > 80 Penalty", coefficient := some 0.4, contribution := 0.4 }
  |>.rule (lowerOrEmpty d.gender == "female")
      { varName := "Female Gender", coefficient := some 0.25, contribution := 0.25 }
  |>.rule (truthyN d.ejectionFraction && decide (qOr0 d.ejectionFraction < 30))
      { varName := "Ejection Fraction < 30%", coefficient := some 0.9, contribution := 0.9 }
  |>.rule (truthyB d.dialysis)
      { varName := "Dialysis", coefficient := some 1.3, contribution := 1.3 }
  |>.rule (priorityIsEmergency d)
      { varName := "Emergency Surgery", coefficient := some 1.2, contribution := 1.2 }
  |>.rule (truthyB d.reoperation)
      { varName := "Reoperation", coefficient := some 0.7, contribution := 0.7 }
  |>.rule (truthyB d.cardiogenicShock)
      { varName := "Cardiogenic Shock", coefficient := some 1.6, contribution := 1.6 }
  |>.rule (truthyB d.endocarditis)
      { varName := "Endocarditis", coefficient := some 0.8, contribution := 0.8 }

/-- Transcribes the simple `calculateAVRMortality` (used by
`calculateAVRMorbidity`); same conditions and coefficients as the detailed
AVR model, as a plain logit sum. -/
def calculateAVRMortalityLogit (d : PatientData) : ℚ :=
  -5.8
  + (if truthyN d.age && decide (qOr0 d.age > 60) then (qOr0 d.age - 60) * 0.06 else 0)
  + (if truthyN d.age && decide (qOr0 d.age > 80) then 0.4 else 0)
  + (if lowerOrEmpty d.gender == "female" then 0.25 else 0)
  + (if truthyN d.ejectionFraction && decide (qOr0 d.ejectionFraction < 30) then 0.9 else 0)
  + (if truthyB d.dialysis then 1.3 else 0)
  + (if priorityIsEmergency d then 1.2 else 0)
  + (if truthyB d.reoperation then 0.7 else 0)
  + (if truthyB d.cardiogenicShock then 1.6 else 0)
  + (if truthyB d.endocarditis then 0.8 else 0)

/-- Transcribes `calculateMVRMortality`, baseline −5.5. -/
def calculateMVRMortalityLogit (d : PatientData) : ℚ :=
  -5.5
  + (if truthyN d.age && decide (qOr0 d.age > 60) then (qOr0 d.age - 60) * 0.055 else 0)
  + (if lowerOrEmpty d.gender == "female" then 0.2 else 0)
  + (if truthyN d.ejectionFraction && decide (qOr0 d.ejectionFraction < 30) then 1.0 else 0)
  + (if truthyB d.dialysis then 1.4 else 0)
  + (if priorityIsEmergency d then 1.3 else 0)
  + (if truthyB d.reoperation then 0.8 else 0)
  + (if truthyB d.endocarditis then 0.9 else 0)
  + (if truthyB d.pulmonaryHypertension then 0.5 else 0)

/-- Transcribes `calculateMVRepairMortality`, baseline −6.2. -/
def calculateMVRepairMortalityLogit (d : PatientData) : ℚ :=
  -6.2
  + (if truthyN d.age && decide (qOr0 d.age > 60) then (qOr0 d.age - 60) * 0.045 else 0)
  + (if truthyN d.ejectionFraction && decide (qOr0 d.ejectionFraction < 30) then 0.7 else 0)
  + (if priorityIsEmergency d then 1.1 else 0)
  + (if truthyB d.endocarditis then 0.7 else 0)

/-- Transcribes `estimateMortalityFromPartialData`: the integer risk-factor
count of the fallback heuristic. -/
def partialRiskScore (d : PatientData) : ℚ :=
  (match d.age with
    | none => 0
    | some a => if a > 75 then 2 else if a > 65 then 1 else 0)
  + (if truthyN d.ejectionFraction && decide (qOr0 d.ejectionFraction < 30) then 3 else 0)
  + (if truthyB d.dialysis then 3 else 0)
  + (if d.priority == some "emergency" then 3 else 0)
  + (if truthyB d.cardiogenicShock then 4 else 0)
  + (if truthyB d.reoperation then 2 else 0)

/-- Transcribes the breakpoint mapping of `estimateMortalityFromPartialData`
(the returned strings parse back to these exact values). -/
def estimateMortalityFromPartialData (d : PatientData) : ℚ :=
  if partialRiskScore d ≤ 2 then 1.5
  else if partialRiskScore d ≤ 4 then 3.0
  else if partialRiskScore d ≤ 6 then 5.5
  else if partialRiskScore d ≤ 8 then 8.0
  else 12.0

/-- Transcribes `estimateMorbidityFromPartialData`: `mortality × 3.5`. -/
def estimateMorbidityFromPartialData (d : PatientData) : ℚ :=
  estimateMortalityFromPartialData d * 3.5

/-- An outcome value as stored in the result bundle.  The source stores a
rendered string; its numeric content is one of: a direct percent (the
heuristic paths), a percent derived from a logit by the logistic transform
at the given decimal precision, a morbidity percent derived by a
multiplier from a mortality percent, or the renal `'NA'` marker.  The
numeric interpretation is `Outcome.displayedPercent` below. -/
inductive Outcome where
  | pct (p : ℚ)
  | fromLogit (l : ℚ) (precision : ℕ)
  | scaled (l : ℚ) (mult : ℚ)
  | na
  deriving DecidableEq, Repr

/-- The aggregate result of `calculateSTSRisk` (`riskCategory`, derived
from the mortality percent by `categorizeRisk`, lives in the
noncomputable display layer as `stsRiskCategory`). -/
structure STSResults where
  mortality : Option Outcome := none
  morbidity : Option Outcome := none
  stroke : Option Outcome := none
  renalFailure : Option Outcome := none
  reoperation : Option Outcome := none
  prolongedVentilation : Option Outcome := none
  deepSternalWoundInfection : Option Outcome := none
  longHospitalStay : Option Outcome := none
  shortHospitalStay : Option Outcome := none
  confidence : String := "high"
  missingFields : List String := []
  detailedSteps : List Step := []
  morbiditySteps : Option (List Step) := none
  strokeSteps : Option (List Step) := none
  renalFailureSteps : Option (List Step) := none
  reoperationSteps : Option (List Step) := none
  prolongedVentilationSteps : Option (List Step) := none
  deepSternalWoundInfectionSteps : Option (List Step) := none
  longHospitalStaySteps : Option (List Step) := none
  shortHospitalStaySteps : Option (List Step) := none
  deriving DecidableEq, Repr

/-- The required-field check of `calculateSTSRisk`: a field is pushed onto
`missingFields` when it is JS-falsy. -/
def missingFieldsOf (d : PatientData) : List String :=
  (if !truthyN d.age then ["age"] else [])
  ++ (if !truthyS d.gender then ["gender"] else [])
  ++ (if !truthyS d.procedureType then ["procedureType"] else [])

/-- Transcribes `calculateSTSRisk`: the required-field guard, the
procedure-type dispatch (a `switch` on the lower-cased procedure type) and
the assembly of the result bundle. -/
def calculateSTSRisk (d : PatientData) : STSResults :=
  if missingFieldsOf d ≠ [] then
    { mortality := some (.pct (estimateMortalityFromPartialData d)),
      morbidity := some (.pct (estimateMorbidityFromPartialData d)),
      confidence := "low",
      missingFields := missingFieldsOf d }
  else
    let p := jsToLower (strOrEmpty d.procedureType)
    if p == "cabg" || p == "isolated cabg" then
      { mortality := some (.fromLogit (calculateCABGMortalityDetailed d).logit 2),
        detailedSteps := (calculateCABGMortalityDetailed d).steps,
        morbidity := some (.fromLogit (calculateCABGMorbidityDetailed d).logit 2),
        morbiditySteps := some (calculateCABGMorbidityDetailed d).steps,
        stroke := some (.fromLogit (calculateCABGStrokeDetailed d).logit 2),
        strokeSteps := some (calculateCABGStrokeDetailed d).steps,
        renalFailure := some (match (calculateCABGRenalFailureDetailed d).value with
          | none => Outcome.na
          | some l => Outcome.fromLogit l 2),
        renalFailureSteps := some (calculateCABGRenalFailureDetailed d).steps,
        reoperation := some (.fromLogit (calculateCABGReoperationDetailed d).logit 2),
        reoperationSteps := some (calculateCABGReoperationDetailed d).steps,
        prolongedVentilation := some (.fromLogit (calculateCABGProlongedVentilationDetailed d).logit 2),
        prolongedVentilationSteps := some (calculateCABGProlongedVentilationDetailed d).steps,
        deepSternalWoundInfection := some (.fromLogit (calculateCABGDeepSternalWoundInfectionDetailed d).logit 3),
        deepSternalWoundInfectionSteps := some (calculateCABGDeepSternalWoundInfectionDetailed d).steps,
        longHospitalStay := some (.fromLogit (calculateCABGLongHospitalStayDetailed d).logit 2),
        longHospitalStaySteps := some (calculateCABGLongHospitalStayDetailed d).steps,
        shortHospitalStay := some (.fromLogit (calculateCABGShortHospitalStayDetailed d).logit 1),
        shortHospitalStaySteps := some (calculateCABGShortHospitalStayDetailed d).steps,
        confidence := "high",
        missingFields := [] }
    else if p == "avr" || p == "aortic valve replacement" || p == "isolated avr" then
      { mortality := some (.fromLogit (calculateAVRMortalityDetailed d).logit 2),
        detailedSteps := (calculateAVRMortalityDetailed d).steps,
        morbidity := some (.scaled (calculateAVRMortalityLogit d) 3.5),
        confidence := "high" }
    else if p == "mvr" || p == "mitral valve replacement" || p == "isolated mvr" then
      { mortality := some (.fromLogit (calculateMVRMortalityLogit d) 2),
        detailedSteps := [{ varName := "MVR Calculation", coefficient := none, contribution := 0 }],
        morbidity := some (.scaled (calculateMVRMortalityLogit d) 3.8),
        confidence := "high" }
    else if p == "mv repair" || p == "mitral valve repair" then
      { mortality := some (.fromLogit (calculateMVRepairMortalityLogit d) 2),
        detailedSteps := [{ varName := "MV Repair Calculation", coefficient := none, contribution := 0 }],
        morbidity := some (.scaled (calculateMVRepairMortalityLogit d) 3.2),
        confidence := "high" }
    else
      { mortality := some (.pct (estimateMortalityFromPartialData d)),
        morbidity := some (.pct (estimateMorbidityFromPartialData d)),
        confidence := "medium" }

/-- The logistic transform `1 / (1 + e^(−logit))` applied to an exact
rational logit. -/
noncomputable def logisticProb (l : ℚ) : ℝ := 1 / (1 + Real.exp (-(l : ℝ)))

/-- JS `Number.prototype.toFixed(k)` on a nonnegative value, as the
rounded-to-k-decimals real number the rendered string denotes. -/
noncomputable def toFixedVal (k : ℕ) (x : ℝ) : ℝ := (⌊x * 10 ^ k + 1 / 2⌋ : ℤ) / 10 ^ k

/-- The percent a stored outcome denotes (what `parseFloat` recovers from
the rendered string).  The renal `'NA'` marker has no numeric reading; it
is mapped to `0` and never consulted (the mortality outcome, the only one
fed to `categorizeRisk`, is never `na`). -/
noncomputable def Outcome.displayedPercent : Outcome → ℝ
  | .pct p => (p : ℝ)
  | .fromLogit l k => toFixedVal k (100 * logisticProb l)
  | .scaled l m => toFixedVal 2 (toFixedVal 2 (100 * logisticProb l) * (m : ℝ))
  | .na => 0

open Classical in
/-- Transcribes `categorizeRisk`: Low below 1%, Moderate below 5%, High
otherwise. -/
noncomputable def categorizeRisk (p : ℝ) : String :=
  if p < 1 then "Low" else if p < 5 then "Moderate" else "High"

/-- The `riskCategory` field of the result bundle: `categorizeRisk`
applied to the mortality percent (the `none` arm is unreachable — the
dispatcher always sets a mortality value). -/
noncomputable def stsRiskCategory (d : PatientData) : String :=
  match (calculateSTSRisk d).mortality with
  | some o => categorizeRisk o.displayedPercent
  | none => "High"

/-- The end-to-end scenario record of the specification: age 75, female,
isolated CABG, EF 25, on dialysis, emergent priority. -/
def patientC1 : PatientData :=
  { age := some 75, gender := some "Female", procedureType := some "Isolated CABG",
    ejectionFraction := some 25, dialysis := some true, priority := some "Emergent" }

/-- A CABG record for which no risk-factor rule beyond the baseline fires. -/
def patientBaselineOnly : PatientData :=
  { age := some 50, gender := some "Male", procedureType := some "CABG" }

/-- Baseline CABG record with age exactly 60. -/
def patientAge60 : PatientData :=
  { age := some 60, gender := some "Male", procedureType := some "CABG" }

/-- Baseline CABG record with age 61. -/
def patientAge61 : PatientData :=
  { age := some 61, gender := some "Male", procedureType := some "CABG" }

/-- Baseline CABG record with diabetes reported as the string `"None"`. -/
def patientDiabetesNone : PatientData :=
  { age := some 50, gender := some "Male", procedureType := some "CABG",
    diabetes := some "None" }

/-- Baseline CABG record with diabetes reported as `"No"`. -/
def patientDiabetesNo : PatientData :=
  { age := some 50, gender := some "Male", procedureType := some "CABG",
    diabetes := some "No" }

/-- Baseline CABG record with diabetes reported as `"NO"` (case variant). -/
def patientDiabetesNoUpper : PatientData :=
  { age := some 50, gender := some "Male", procedureType := some "CABG",
    diabetes := some "NO" }

/-- Baseline CABG record with insulin-treated diabetes. -/
def patientDiabetesYesInsulin : PatientData :=
  { age := some 50, gender := some "Male", procedureType := some "CABG",
    diabetes := some "Yes, Insulin" }

/-- Baseline CABG record with chronic lung disease reported as `"No"`. -/
def patientLungNo : PatientData :=
  { age := some 50, gender := some "Male", procedureType := some "CABG",
    chronicLungDisease := some "No" }

/-- Baseline CABG record with MI timing more than 21 days ago. -/
def patientMiOver21 : PatientData :=
  { age := some 50, gender := some "Male", procedureType := some "CABG",
    miTiming := some "> 21 Days" }

/-- Baseline CABG record with the no-space over-21-days MI timing variant. -/
def patientMiOver21NoSpace : PatientData :=
  { age := some 50, gender := some "Male", procedureType := some "CABG",
    miTiming := some ">21 Days" }

/-- Baseline CABG record with MI 1 to 7 days ago. -/
def patientMi1to7 : PatientData :=
  { age := some 50, gender := some "Male", procedureType := some "CABG",
    miTiming := some "1 to 7 Days" }

/-- Baseline CABG record with MI within 6 hours. -/
def patientMi6Hrs : PatientData :=
  { age := some 50, gender := some "Male", procedureType := some "CABG",
    miTiming := some "≤ 6 Hrs" }

/-- A 55-year-old CABG record with no other risk factors. -/
def patient55 : PatientData :=
  { age := some 55, gender := some "Male", procedureType := some "CABG" }

/-- An 80-year-old CABG record with cardiogenic shock. -/
def patient80Shock : PatientData :=
  { age := some 80, gender := some "Male", procedureType := some "CABG",
    cardiogenicShock := some true }

/-- A record missing the required gender field (heuristic fallback path). -/
def patientPartial : PatientData :=
  { age := some 80, procedureType := some "CABG",
    dialysis := some true, cardiogenicShock := some true }

/-- The baseline state reconciles: its single row carries the baseline. -/
theorem Trace.ok_init (b : ℚ) : (Trace.init b).contribSum = (Trace.init b).logit := by
  simp [Trace.init, Trace.contribSum]

/-- Applying a rule preserves reconciliation: a fired rule adds the same
amount to the row sum and to the logit. -/
theorem Trace.ok_rule (f : Bool) (s : Step) {a : Trace} (h : a.contribSum = a.logit) :
    (a.rule f s).contribSum = (a.rule f s).logit := by
  cases f <;> simp_all [Trace.rule, Trace.contribSum]

/-- Reconciliation of the CABG mortality trace. -/
theorem mortalityReconciles (d : PatientData) :
    (calculateCABGMortalityDetailed d).contribSum = (calculateCABGMortalityDetailed d).logit := by
  unfold calculateCABGMortalityDetailed
  repeat first | exact Trace.ok_init _ | apply Trace.ok_rule

/-- Reconciliation of the CABG morbidity trace. -/
theorem morbidityReconciles (d : PatientData) :
    (calculateCABGMorbidityDetailed d).contribSum = (calculateCABGMorbidityDetailed d).logit := by
  unfold calculateCABGMorbidityDetailed
  repeat first | exact Trace.ok_init _ | apply Trace.ok_rule

/-- Reconciliation of the CABG stroke trace. -/
theorem strokeReconciles (d : PatientData) :
    (calculateCABGStrokeDetailed d).contribSum = (calculateCABGStrokeDetailed d).logit := by
  unfold calculateCABGStrokeDetailed
  repeat first | exact Trace.ok_init _ | apply Trace.ok_rule

/-- Reconciliation of the CABG renal-failure trace (computed branch). -/
theorem renalReconciles (d : PatientData) :
    (renalTrace d).contribSum = (renalTrace d).logit := by
  unfold renalTrace
  repeat first | exact Trace.ok_init _ | apply Trace.ok_rule

/-- Reconciliation of the CABG reoperation trace. -/
theorem reoperationReconciles (d : PatientData) :
    (calculateCABGReoperationDetailed d).contribSum = (calculateCABGReoperationDetailed d).logit := by
  unfold calculateCABGReoperationDetailed
  repeat first | exact Trace.ok_init _ | apply Trace.ok_rule

/-- Reconciliation of the CABG prolonged-ventilation trace. -/
theorem ventilationReconciles (d : PatientData) :
    (calculateCABGProlongedVentilationDetailed d).contribSum =
      (calculateCABGProlongedVentilationDetailed d).logit := by
  unfold calculateCABGProlongedVentilationDetailed
  repeat first | exact Trace.ok_init _ | apply Trace.ok_rule

/-- Reconciliation of the CABG deep-sternal-wound-infection trace. -/
theorem dswiReconciles (d : PatientData) :
    (calculateCABGDeepSternalWoundInfectionDetailed d).contribSum =
      (calculateCABGDeepSternalWoundInfectionDetailed d).logit := by
  unfold calculateCABGDeepSternalWoundInfectionDetailed
  repeat first | exact Trace.ok_init _ | apply Trace.ok_rule

/-- Reconciliation of the CABG long-hospital-stay trace. -/
theorem longStayReconciles (d : PatientData) :
    (calculateCABGLongHospitalStayDetailed d).contribSum =
      (calculateCABGLongHospitalStayDetailed d).logit := by
  unfold calculateCABGLongHospitalStayDetailed
  repeat first | exact Trace.ok_init _ | apply Trace.ok_rule

/-- Reconciliation of the CABG short-hospital-stay trace. -/
theorem shortStayReconciles (d : PatientData) :
    (calculateCABGShortHospitalStayDetailed d).contribSum =
      (calculateCABGShortHospitalStayDetailed d).logit := by
  unfold calculateCABGShortHospitalStayDetailed
  repeat first | exact Trace.ok_init _ | apply Trace.ok_rule

/-- Reconciliation of the AVR mortality trace. -/
theorem avrReconciles (d : PatientData) :
    (calculateAVRMortalityDetailed d).contribSum = (calculateAVRMortalityDetailed d).logit := by
  unfold calculateAVRMortalityDetailed
  repeat first | exact Trace.ok_init _ | apply Trace.ok_rule

/-- Series lower bound for the exponential at 1/20. -/
theorem expTwentieth_lb : (1.05127 : ℝ) ≤ Real.exp (1/20) := by
  have h := Real.sum_le_exp_of_nonneg (by norm_num : (0:ℝ) ≤ 1/20) 4
  simp [Finset.sum_range_succ, Nat.factorial] at h
  norm_num at h
  linarith

/-- Series upper bound for the exponential at 1/20. -/
theorem expTwentieth_ub : Real.exp (1/20 : ℝ) ≤ 1.051272 := by
  have h := @Real.exp_bound' (1/20) (by norm_num) (by norm_num) 4 (by norm_num)
  simp [Finset.sum_range_succ, Nat.factorial] at h
  norm_num at h
  linarith

/-- Lower bound for the exponential at 2. -/
theorem expTwo_lb : (7.389056 : ℝ) < Real.exp 2 := by
  have h2 : Real.exp 2 = Real.exp 1 * Real.exp 1 := by
    rw [← Real.exp_add]; norm_num
  nlinarith [Real.exp_one_gt_d9, Real.exp_pos 1]

/-- Upper bound for the exponential at 2. -/
theorem expTwo_ub : Real.exp 2 < 7.3890561 := by
  have h2 : Real.exp 2 = Real.exp 1 * Real.exp 1 := by
    rw [← Real.exp_add]; norm_num
  nlinarith [Real.exp_one_lt_d9, Real.exp_pos 1]

/-- Lower bound for the exponential at 39/20 (the C1 scenario logit). -/
theorem exp3920_lb : (7.02868 : ℝ) < Real.exp (39/20) := by
  have key : Real.exp (39/20) * Real.exp (1/20) = Real.exp 2 := by
    rw [← Real.exp_add]; norm_num
  nlinarith [expTwentieth_ub, expTwo_lb, Real.exp_pos (39/20 : ℝ), Real.exp_pos (1/20 : ℝ)]

/-- Upper bound for the exponential at 39/20. -/
theorem exp3920_ub : Real.exp (39/20) < 7.0287 := by
  have key : Real.exp (39/20) * Real.exp (1/20) = Real.exp 2 := by
    rw [← Real.exp_add]; norm_num
  nlinarith [expTwentieth_lb, expTwo_ub, Real.exp_pos (39/20 : ℝ), Real.exp_pos (1/20 : ℝ)]

/-- Lower bound for the exponential at 6. -/
theorem expSix_lb : (403.4287 : ℝ) < Real.exp 6 := by
  have h6 : Real.exp 6 = Real.exp 1 ^ 6 := by
    rw [← Real.exp_nat_mul]; norm_num
  rw [h6]
  calc (403.4287 : ℝ) < 2.7182818283 ^ 6 := by norm_num
    _ < Real.exp 1 ^ 6 := by
        apply pow_lt_pow_left₀ Real.exp_one_gt_d9 (by norm_num)
        norm_num

/-- Upper bound for the exponential at 6. -/
theorem expSix_ub : Real.exp 6 < 403.4289 := by
  have h6 : Real.exp 6 = Real.exp 1 ^ 6 := by
    rw [← Real.exp_nat_mul]; norm_num
  rw [h6]
  calc Real.exp 1 ^ 6 < 2.7182818286 ^ 6 := by
        apply pow_lt_pow_left₀ Real.exp_one_lt_d9 (le_of_lt (Real.exp_pos 1))
        norm_num
    _ < 403.4289 := by norm_num

/-- The raw CABG baseline-only mortality percent equals `100 / (1 + e^6)`. -/
theorem rawPercent_neg6 : 100 * logisticProb (-6) = 100 / (1 + Real.exp 6) := by
  unfold logisticProb
  push_cast
  ring_nf

/-- The raw baseline-only mortality percent lies between 0.247 and 0.248. -/
theorem rawPercent_neg6_bounds :
    0.247 < 100 * logisticProb (-6) ∧ 100 * logisticProb (-6) < 0.248 := by
  rw [rawPercent_neg6]
  have h1 := expSix_lb
  have h2 := expSix_ub
  have hp : (0:ℝ) < 1 + Real.exp 6 := by positivity
  constructor
  · rw [lt_div_iff₀ hp]; linarith
  · rw [div_lt_iff₀ hp]; linarith

/-- The baseline-only mortality percent renders as 0.25 at two decimals. -/
theorem displayed_neg6 : Outcome.displayedPercent (.fromLogit (-6) 2) = 0.25 := by
  have hb := rawPercent_neg6_bounds
  simp only [Outcome.displayedPercent, toFixedVal]
  have hf : ⌊(100 * logisticProb (-6)) * 10 ^ 2 + 1 / 2⌋ = 25 := by
    have h1 : ((25:ℤ):ℝ) ≤ (100 * logisticProb (-6)) * 10 ^ 2 + 1 / 2 := by
      push_cast; nlinarith [hb.1]
    have h2 : (100 * logisticProb (-6)) * 10 ^ 2 + 1 / 2 < (25:ℤ) + 1 := by
      push_cast; nlinarith [hb.2]
    exact Int.floor_eq_iff.mpr ⟨h1, h2⟩
  rw [hf]
  norm_num

/-- The raw C1-scenario mortality percent equals `100 / (1 + e^(39/20))`. -/
theorem rawPercent_c1 : 100 * logisticProb (-39/20) = 100 / (1 + Real.exp (39/20)) := by
  unfold logisticProb
  push_cast
  ring_nf

/-- The raw C1-scenario mortality percent lies between 12.455 and 12.456. -/
theorem rawPercent_c1_bounds :
    12.455 < 100 * logisticProb (-39/20) ∧ 100 * logisticProb (-39/20) < 12.456 := by
  rw [rawPercent_c1]
  have h1 := exp3920_lb
  have h2 := exp3920_ub
  have hp : (0:ℝ) < 1 + Real.exp (39/20) := by positivity
  constructor
  · rw [lt_div_iff₀ hp]; linarith
  · rw [div_lt_iff₀ hp]; linarith

/-- The C1-scenario mortality percent renders as 12.46 at two decimals. -/
theorem displayed_c1 : Outcome.displayedPercent (.fromLogit (-39/20) 2) = 12.46 := by
  have hb := rawPercent_c1_bounds
  simp only [Outcome.displayedPercent, toFixedVal]
  have hf : ⌊(100 * logisticProb (-39/20)) * 10 ^ 2 + 1 / 2⌋ = 1246 := by
    have h1 : ((1246:ℤ):ℝ) ≤ (100 * logisticProb (-39/20)) * 10 ^ 2 + 1 / 2 := by
      push_cast; nlinarith [hb.1]
    have h2 : (100 * logisticProb (-39/20)) * 10 ^ 2 + 1 / 2 < (1246:ℤ) + 1 := by
      push_cast; nlinarith [hb.2]
    exact Int.floor_eq_iff.mpr ⟨h1, h2⟩
  rw [hf]
  norm_num

/-- A 12.46% mortality is categorized High. -/
theorem categorize_1246 : categorizeRisk 12.46 = "High" := by
  unfold categorizeRisk
  rw [if_neg (by norm_num), if_neg (by norm_num)]

/-- C1 counterexample: for the record {age 75, female, isolated CABG, EF 25,
dialysis, emergent} the CABG mortality logit is not −1.65 — the age > 75
step penalty does not fire at age exactly 75 (strict comparison), so the
claimed sum is off by 0.3. -/
theorem claim_C1_counterexample :
    (calculateCABGMortalityDetailed patientC1).logit ≠ -1.65 ∧
    (calculateCABGMortalityDetailed patientC1).logit = -1.95 := by
  constructor <;>
    · simp +decide [patientC1, calculateCABGMortalityDetailed, Trace.init, Trace.rule, qOr0]
      norm_num

/-- C1 (amended): for the record {age 75, female, isolated CABG, EF 25,
dialysis, emergent} the mortality logit is
−6.0 + 0.75 (age) + 0.3 (female) + 0.8 (EF < 30) + 1.2 (dialysis)
+ 1.0 (emergent) = −1.95 (no age > 75 step at age exactly 75); the
reported mortality is 12.46% (two-decimal rendering of
100/(1+e^1.95) ≈ 12.4553), riskCategory is High and confidence is high. -/
theorem claim_C1 :
    (calculateCABGMortalityDetailed patientC1).logit = -6.0 + 0.75 + 0.3 + 0.8 + 1.2 + 1.0 ∧
    (calculateSTSRisk patientC1).mortality = some (.fromLogit (-39/20) 2) ∧
    (calculateSTSRisk patientC1).confidence = "high" ∧
    Outcome.displayedPercent (.fromLogit (-39/20) 2) = 12.46 ∧
    stsRiskCategory patientC1 = "High" := by
  have hm : (calculateSTSRisk patientC1).mortality = some (.fromLogit (-39/20) 2) := by
    simp +decide [patientC1, calculateSTSRisk, missingFieldsOf, calculateCABGMortalityDetailed,
      Trace.init, Trace.rule, qOr0]
    norm_num
  refine ⟨?_, hm, ?_, displayed_c1, ?_⟩
  · simp +decide [patientC1, calculateCABGMortalityDetailed, Trace.init, Trace.rule, qOr0]
    norm_num
  · simp +decide [patientC1, calculateSTSRisk, missingFieldsOf]
  · simp only [stsRiskCategory, hm]
    rw [displayed_c1]
    exact categorize_1246

/-- C2: for every patient record and every computed outcome trace, the sum
of the non-summary row contributions equals the accumulated logit recorded
by the TOTAL LOGIT row; in particular a CABG record for which no
risk-factor rule beyond the baseline fires has mortality logit exactly
−6.0, raw mortality percent 100/(1+e^6) strictly between 0.247 and 0.248,
rendered 0.25 at two decimals. -/
theorem claim_C2 :
    (∀ d, (calculateCABGMortalityDetailed d).contribSum = (calculateCABGMortalityDetailed d).logit) ∧
    (∀ d, (calculateCABGMorbidityDetailed d).contribSum = (calculateCABGMorbidityDetailed d).logit) ∧
    (∀ d, (calculateCABGStrokeDetailed d).contribSum = (calculateCABGStrokeDetailed d).logit) ∧
    (∀ d, (renalTrace d).contribSum = (renalTrace d).logit) ∧
    (∀ d, (calculateCABGReoperationDetailed d).contribSum = (calculateCABGReoperationDetailed d).logit) ∧
    (∀ d, (calculateCABGProlongedVentilationDetailed d).contribSum =
      (calculateCABGProlongedVentilationDetailed d).logit) ∧
    (∀ d, (calculateCABGDeepSternalWoundInfectionDetailed d).contribSum =
      (calculateCABGDeepSternalWoundInfectionDetailed d).logit) ∧
    (∀ d, (calculateCABGLongHospitalStayDetailed d).contribSum =
      (calculateCABGLongHospitalStayDetailed d).logit) ∧
    (∀ d, (calculateCABGShortHospitalStayDetailed d).contribSum =
      (calculateCABGShortHospitalStayDetailed d).logit) ∧
    (∀ d, (calculateAVRMortalityDetailed d).contribSum = (calculateAVRMortalityDetailed d).logit) ∧
    (calculateCABGMortalityDetailed patientBaselineOnly).logit = -6 ∧
    (calculateSTSRisk patientBaselineOnly).mortality = some (.fromLogit (-6) 2) ∧
    100 * logisticProb (-6) = 100 / (1 + Real.exp 6) ∧
    0.247 < 100 * logisticProb (-6) ∧ 100 * logisticProb (-6) < 0.248 ∧
    Outcome.displayedPercent (.fromLogit (-6) 2) = 0.25 := by
  refine ⟨mortalityReconciles, morbidityReconciles, strokeReconciles, renalReconciles,
    reoperationReconciles, ventilationReconciles, dswiReconciles, longStayReconciles,
    shortStayReconciles, avrReconciles, ?_, ?_, rawPercent_neg6,
    rawPercent_neg6_bounds.1, rawPercent_neg6_bounds.2, displayed_neg6⟩
  · simp +decide [patientBaselineOnly, calculateCABGMortalityDetailed, Trace.init, Trace.rule, qOr0]
    norm_num
  · simp +decide [patientBaselineOnly, calculateSTSRisk, missingFieldsOf,
      calculateCABGMortalityDetailed, Trace.init, Trace.rule, qOr0]
    norm_num

/-- C3: in the CABG mortality model a patient aged exactly 60 gets a zero
age contribution (the linear rule fires only strictly above 60), and a
patient aged 61 gets exactly (61 − 60) × 0.05 = 0.05 logit. -/
theorem claim_C3 :
    (calculateCABGMortalityDetailed patientAge60).logit = -6 ∧
    ((calculateCABGMortalityDetailed patientAge60).steps.filter
      (fun s => s.varName == "Age")).map Step.contribution = [0] ∧
    (calculateCABGMortalityDetailed patientAge61).logit = -6 + 0.05 ∧
    ((calculateCABGMortalityDetailed patientAge61).steps.filter
      (fun s => s.varName == "Age")).map Step.contribution = [0.05] := by
  refine ⟨?_, ?_, ?_, ?_⟩ <;>
    (simp +decide [patientAge60, patientAge61, calculateCABGMortalityDetailed,
        Trace.init, Trace.rule, qOr0] <;> norm_num)

/-- C4 counterexample: the sentinel normalization does not cover "None" —
a CABG record with diabetes reported as the string "None" fires the
diabetes rule (the source only compares against lower-case "no"); and the
mortality COPD gate tests `chronicLungDisease` by raw truthiness, so even
the string "No" fires it. -/
theorem claim_C4_counterexample :
    ((calculateCABGMortalityDetailed patientDiabetesNone).steps.filter
      (fun s => s.varName == "Diabetes")).map Step.contribution = [0.2] ∧
    (calculateCABGMortalityDetailed patientDiabetesNone).logit = -6 + 0.2 ∧
    ((calculateCABGMortalityDetailed patientLungNo).steps.filter
      (fun s => s.varName == "COPD")).map Step.contribution = [0.3] ∧
    (calculateCABGMortalityDetailed patientLungNo).logit = -6 + 0.3 := by
  refine ⟨?_, ?_, ?_, ?_⟩ <;>
    (simp +decide [patientDiabetesNone, patientLungNo, calculateCABGMortalityDetailed,
        Trace.init, Trace.rule, qOr0] <;> norm_num)

/-- C4 (amended): the diabetes-style sentinel checks compare the
lower-cased value against "no" only: diabetes "No" (in any letter case)
does not fire the diabetes rule in the mortality and stroke models while
"Yes, Insulin" adds the coefficient; "None" is not special-cased (it
fires, see the counterexample).  The chronic-lung sentinel check of the
morbidity model behaves the same way — `chronicLungDisease` "No" does not
fire its COPD rule — while the mortality model alone gates COPD on raw
truthiness of `chronicLungDisease`, so "No" fires there. -/
theorem claim_C4 :
    ((calculateCABGMortalityDetailed patientDiabetesNo).steps.filter
      (fun s => s.varName == "Diabetes")) = [] ∧
    (calculateCABGMortalityDetailed patientDiabetesNo).logit = -6 ∧
    ((calculateCABGMortalityDetailed patientDiabetesNoUpper).steps.filter
      (fun s => s.varName == "Diabetes")) = [] ∧
    ((calculateCABGMortalityDetailed patientDiabetesYesInsulin).steps.filter
      (fun s => s.varName == "Diabetes")).map Step.contribution = [0.2] ∧
    (calculateCABGMortalityDetailed patientDiabetesYesInsulin).logit = -6 + 0.2 ∧
    (calculateCABGStrokeDetailed patientDiabetesNo).logit = -5.5 ∧
    (calculateCABGStrokeDetailed patientDiabetesYesInsulin).logit = -5.5 + 0.2 ∧
    ((calculateCABGMorbidityDetailed patientLungNo).steps.filter
      (fun s => s.varName == "COPD")) = [] ∧
    (calculateCABGMorbidityDetailed patientLungNo).logit = -4.85 := by
  refine ⟨?_, ?_, ?_, ?_, ?_, ?_, ?_, ?_, ?_⟩ <;>
    (simp +decide [patientDiabetesNo, patientDiabetesNoUpper, patientDiabetesYesInsulin,
        patientLungNo, calculateCABGMortalityDetailed, calculateCABGStrokeDetailed,
        calculateCABGMorbidityDetailed, Trace.init, Trace.rule, qOr0] <;> norm_num)

/-- C5: in the CABG mortality model a record with miTiming "> 21 Days" (or
its no-space variant) adds no recent-MI coefficient; "1 to 7 Days" adds
exactly 0.5; "≤ 6 Hrs" adds exactly 0.7. -/
theorem claim_C5 :
    ((calculateCABGMortalityDetailed patientMiOver21).steps.filter
      (fun s => s.varName == "Recent MI")) = [] ∧
    (calculateCABGMortalityDetailed patientMiOver21).logit = -6 ∧
    ((calculateCABGMortalityDetailed patientMiOver21NoSpace).steps.filter
      (fun s => s.varName == "Recent MI")) = [] ∧
    (calculateCABGMortalityDetailed patientMiOver21NoSpace).logit = -6 ∧
    ((calculateCABGMortalityDetailed patientMi1to7).steps.filter
      (fun s => s.varName == "Recent MI")).map Step.contribution = [0.5] ∧
    (calculateCABGMortalityDetailed patientMi1to7).logit = -6 + 0.5 ∧
    ((calculateCABGMortalityDetailed patientMi6Hrs).steps.filter
      (fun s => s.varName == "Recent MI")).map Step.contribution = [0.7] ∧
    (calculateCABGMortalityDetailed patientMi6Hrs).logit = -6 + 0.7 := by
  refine ⟨?_, ?_, ?_, ?_, ?_, ?_, ?_, ?_⟩ <;>
    (simp +decide [patientMiOver21, patientMiOver21NoSpace, patientMi1to7, patientMi6Hrs,
        calculateCABGMortalityDetailed, Trace.init, Trace.rule, qOr0] <;> norm_num)

/-- C6: for every record with dialysis true, the renal-failure scorer
returns the not-applicable result: no numeric value and a single
explanatory trace row. -/
theorem claim_C6 (d : PatientData) (h : d.dialysis = some true) :
    (calculateCABGRenalFailureDetailed d).value = none ∧
    (calculateCABGRenalFailureDetailed d).steps.length = 1 ∧
    (calculateCABGRenalFailureDetailed d).steps =
      [{ varName := "Pre-existing Dialysis", coefficient := none, contribution := 0 }] := by
  have ht : truthyB d.dialysis = true := by rw [h]; rfl
  refine ⟨?_, ?_, ?_⟩ <;> simp [calculateCABGRenalFailureDetailed, ht]

/-- C6 witness: the end-to-end dialysis record takes the not-applicable
renal path. -/
theorem claim_C6_witness :
    (calculateCABGRenalFailureDetailed patientC1).value = none ∧
    (calculateCABGRenalFailureDetailed patientC1).steps.length = 1 ∧
    (calculateCABGRenalFailureDetailed patientC1).steps =
      [{ varName := "Pre-existing Dialysis", coefficient := none, contribution := 0 }] :=
  claim_C6 patientC1 rfl

/-- C7: a record missing a required field (age, gender or procedureType)
skips full scoring: confidence is low and mortality comes from the
heuristic point count {age>75: +2, 65<age(≤75): +1, EF<30: +3,
dialysis: +3, priority "emergency": +3, cardiogenic shock: +4,
reoperation: +2} mapped through the breakpoints {≤2 → 1.5, ≤4 → 3.0,
≤6 → 5.5, ≤8 → 8.0, else 12.0}, with morbidity = mortality × 3.5. -/
theorem claim_C7 (d : PatientData) (h : missingFieldsOf d ≠ []) :
    (calculateSTSRisk d).confidence = "low" ∧
    (calculateSTSRisk d).mortality = some (.pct (estimateMortalityFromPartialData d)) ∧
    (calculateSTSRisk d).morbidity = some (.pct (estimateMortalityFromPartialData d * 3.5)) ∧
    estimateMortalityFromPartialData d =
      (if partialRiskScore d ≤ 2 then 1.5
       else if partialRiskScore d ≤ 4 then 3.0
       else if partialRiskScore d ≤ 6 then 5.5
       else if partialRiskScore d ≤ 8 then 8.0 else 12.0) ∧
    partialRiskScore d =
      (match d.age with
        | none => 0
        | some a => if a > 75 then 2 else if a > 65 then 1 else 0)
      + (if truthyN d.ejectionFraction && decide (qOr0 d.ejectionFraction < 30) then 3 else 0)
      + (if truthyB d.dialysis then 3 else 0)
      + (if d.priority == some "emergency" then 3 else 0)
      + (if truthyB d.cardiogenicShock then 4 else 0)
      + (if truthyB d.reoperation then 2 else 0) := by
  have hr : calculateSTSRisk d =
      { mortality := some (.pct (estimateMortalityFromPartialData d)),
        morbidity := some (.pct (estimateMorbidityFromPartialData d)),
        confidence := "low",
        missingFields := missingFieldsOf d } := by
    unfold calculateSTSRisk
    rw [if_pos h]
  rw [hr]
  refine ⟨rfl, rfl, ?_, rfl, rfl⟩
  simp [estimateMorbidityFromPartialData]

/-- C7 witness: a record missing gender (age 80, dialysis, shock) takes the
heuristic path. -/
theorem claim_C7_witness :
    (calculateSTSRisk patientPartial).confidence = "low" ∧
    (calculateSTSRisk patientPartial).mortality =
      some (.pct (estimateMortalityFromPartialData patientPartial)) ∧
    (calculateSTSRisk patientPartial).morbidity =
      some (.pct (estimateMortalityFromPartialData patientPartial * 3.5)) ∧
    estimateMortalityFromPartialData patientPartial =
      (if partialRiskScore patientPartial ≤ 2 then 1.5
       else if partialRiskScore patientPartial ≤ 4 then 3.0
       else if partialRiskScore patientPartial ≤ 6 then 5.5
       else if partialRiskScore patientPartial ≤ 8 then 8.0 else 12.0) ∧
    partialRiskScore patientPartial =
      (match patientPartial.age with
        | none => 0
        | some a => if a > 75 then 2 else if a > 65 then 1 else 0)
      + (if truthyN patientPartial.ejectionFraction &&
           decide (qOr0 patientPartial.ejectionFraction < 30) then 3 else 0)
      + (if truthyB patientPartial.dialysis then 3 else 0)
      + (if patientPartial.priority == some "emergency" then 3 else 0)
      + (if truthyB patientPartial.cardiogenicShock then 4 else 0)
      + (if truthyB patientPartial.reoperation then 2 else 0) :=
  claim_C7 patientPartial (by decide)

/-- C8: the short-hospital-stay scorer inverts the sign of the risk
factors: the 55-year-old low-risk CABG record has logit −0.5 + 0.4 (young
age added) while the 80-year-old record with cardiogenic shock has logit
−0.5 − 0.5 − 1.2 (age and shock subtracted), and the former has a strictly
higher short-stay probability. -/
theorem claim_C8 :
    (calculateCABGShortHospitalStayDetailed patient55).logit = -0.5 + 0.4 ∧
    (calculateCABGShortHospitalStayDetailed patient80Shock).logit = -0.5 - 0.5 - 1.2 ∧
    logisticProb (calculateCABGShortHospitalStayDetailed patient80Shock).logit <
      logisticProb (calculateCABGShortHospitalStayDetailed patient55).logit := by
  have h55 : (calculateCABGShortHospitalStayDetailed patient55).logit = -1/10 := by
    simp +decide [patient55, calculateCABGShortHospitalStayDetailed, Trace.init, Trace.rule, qOr0]
    norm_num
  have h80 : (calculateCABGShortHospitalStayDetailed patient80Shock).logit = -11/5 := by
    simp +decide [patient80Shock, calculateCABGShortHospitalStayDetailed,
      Trace.init, Trace.rule, qOr0]
    norm_num
  refine ⟨by rw [h55]; norm_num, by rw [h80]; norm_num, ?_⟩
  rw [h55, h80]
  unfold logisticProb
  have hcast : ∀ q : ℚ, -((q : ℝ)) = ((-q : ℚ) : ℝ) := by intro q; push_cast; ring
  apply one_div_lt_one_div_of_lt
  · positivity
  · have : Real.exp (-((-1/10 : ℚ) : ℝ)) < Real.exp (-((-11/5 : ℚ) : ℝ)) := by
      apply Real.exp_lt_exp.mpr
      push_cast
      norm_num
    linarith

/-- C9: the assessment is total and well-formed on every structured
record: it always produces a mortality and a morbidity value and one of
the three confidence levels — no input reaches an error path. -/
theorem claim_C9 (d : PatientData) :
    (calculateSTSRisk d).mortality.isSome = true ∧
    (calculateSTSRisk d).morbidity.isSome = true ∧
    ((calculateSTSRisk d).confidence = "high" ∨ (calculateSTSRisk d).confidence = "medium" ∨
      (calculateSTSRisk d).confidence = "low") := by
  unfold calculateSTSRisk
  dsimp only
  split_ifs <;> simp

/-- C10: the assessment is a pure function of its input: equal records
give equal results, including the full detailed trace (its ordering) and
the derived risk category; the input record is a value and cannot be
mutated by the computation. -/
theorem claim_C10 (d₁ d₂ : PatientData) (h : d₁ = d₂) :
    calculateSTSRisk d₁ = calculateSTSRisk d₂ ∧
    (calculateSTSRisk d₁).detailedSteps = (calculateSTSRisk d₂).detailedSteps ∧
    stsRiskCategory d₁ = stsRiskCategory d₂ := by
  subst h
  exact ⟨rfl, rfl, rfl⟩

/-- C10 witness: two invocations on the end-to-end record agree. -/
theorem claim_C10_witness :
    calculateSTSRisk patientC1 = calculateSTSRisk patientC1 ∧
    (calculateSTSRisk patientC1).detailedSteps = (calculateSTSRisk patientC1).detailedSteps ∧
    stsRiskCategory patientC1 = stsRiskCategory patientC1 :=
  claim_C10 patientC1 patientC1 rfl
